import Mathlib

/-!
Verification of the figure-extraction core of the `med_images` repository
(`src/figure_scraper.py`, class `FigureScraper`) against its natural-language
specification.

The Python code is shallowly embedded below.  Python strings are Lean
`String`s; the string primitives the code uses (`str.strip`, `str.lower`,
substring containment via `in`, `str.startswith`, `re.sub(r'\s+', ' ', _)`,
truthiness-based `or`) are given explicit executable models first.  HTML
documents are abstracted by their observable behaviour: a figure element is
modelled by the results that BeautifulSoup queries (`select_one(...).get_text()`,
`find('img').get('src'/'data-src')`, `get('id')`, `find_next_sibling().get_text()`)
return on it, and a fetched figure page by the `src` attributes its
`soup.select(selector)` calls yield, in document order.  Network fetches are
oracle parameters: `none`/`Except.error` models a failed fetch (non-200 status,
timeout, or raised exception), which is how the Python code observes them.
-/

namespace MedImages

/-- Python whitespace class as used by `str.strip()` and the regex `\s`
(space, tab, newline, carriage return, vertical tab, form feed). -/
def isWsChar (c : Char) : Bool :=
  c = ' ' || c = '\t' || c = '\n' || c = '\x0d' || c = '\x0b' || c = '\x0c'

/-- Python `s.strip()`: remove leading and trailing whitespace. -/
def pyStrip (s : String) : String :=
  ⟨((s.data.dropWhile isWsChar).reverse.dropWhile isWsChar).reverse⟩

/-- Python `s.startswith(p)`. -/
def pyStartsWith (s p : String) : Bool :=
  p.data.isPrefixOf s.data

/-- Python `s.lower()` (the URLs involved are ASCII). -/
def pyLower (s : String) : String :=
  ⟨s.data.map Char.toLower⟩

/-- Computable list-infix test, the model of Python substring containment. -/
def isInfixL : List Char → List Char → Bool
  | needle, [] => needle.isEmpty
  | needle, hay@(_ :: t) => needle.isPrefixOf hay || isInfixL needle t

/-- Python `needle in hay` on strings: substring containment. -/
def pyContains (hay needle : String) : Bool :=
  isInfixL needle.data hay.data

/-- Worker for whitespace collapsing: every maximal run of whitespace
characters becomes a single space.  The flag records whether the previous
character was part of a whitespace run. -/
def collapseGo : List Char → Bool → List Char
  | [], _ => []
  | c :: cs, inRun =>
    if isWsChar c then
      if inRun then collapseGo cs true else ' ' :: collapseGo cs true
    else c :: collapseGo cs false

/-- Python `re.sub(r'\s+', ' ', s)`. -/
def collapseWs (s : String) : String :=
  ⟨collapseGo s.data false⟩

/-- Python `a or b` where `a : str | None` and `b : str | None`
(`None` and `""` are falsy). -/
def pyOr (a b : Option String) : Option String :=
  match a with
  | some s => if s = "" then b else some s
  | none => b

/-- Python `a or b` where `a : str | None` is falsy-defaulted to the string `b`. -/
def pyOrStr (a : Option String) (b : String) : String :=
  match a with
  | some s => if s = "" then b else s
  | none => b

/-! ## `_is_cdn_url` (figure_scraper.py lines 214-231) -/

/-- The fixed path markers of the binary-asset (blob) store,
`cdn_patterns` in `_is_cdn_url`. -/
def cdn_patterns : List String :=
  ["cdn.ncbi.nlm.nih.gov/pmc/blobs/", "ncbi.nlm.nih.gov/pmc/blobs/"]

/-- The fixed image extensions, `image_extensions` in `_is_cdn_url`. -/
def image_extensions : List String :=
  [".jpg", ".jpeg", ".png", ".gif", ".webp"]

/-- `FigureScraper._is_cdn_url`: direct-asset classification.  Empty string is
falsy (`if not url: return False`); otherwise the URL must contain one of the
blob-store path markers AND one of the image extensions (checked against the
lowercased URL). -/
def is_cdn_url (url : String) : Bool :=
  if url = "" then false
  else
    (cdn_patterns.any (fun p => pyContains url p)) &&
    (image_extensions.any (fun e => pyContains (pyLower url) e))

/-- The recognized extensions of the secondary `elif` branch in
`_scrape_cdn_url_from_figure_page` (line 195). -/
def generic_image_extensions : List String :=
  [".jpg", ".jpeg", ".png"]

/-- The `elif` condition of `_scrape_cdn_url_from_figure_page` (line 195):
the URL belongs to the known NCBI host and carries a recognized raster
extension (case-insensitively), without being a direct blob-store asset. -/
def is_generic_ncbi_image (url : String) : Bool :=
  pyContains url "ncbi.nlm.nih.gov" &&
  (generic_image_extensions.any (fun e => pyContains (pyLower url) e))

/-- The three-way candidate-URL classification of spec section 3
(CandidateUrl), realized by the code's two checks applied in order. -/
inductive UrlClass where
  | directAsset : UrlClass
  | genericRepoImage : UrlClass
  | unusable : UrlClass
deriving DecidableEq

/-- Classification of an arbitrary string candidate URL: direct-asset if
`_is_cdn_url` accepts it, else generic-repository-image if the scan's `elif`
condition accepts it, else unusable. -/
def classify_url (url : String) : UrlClass :=
  if is_cdn_url url then UrlClass.directAsset
  else if is_generic_ncbi_image url then UrlClass.genericRepoImage
  else UrlClass.unusable

/-! ## `_normalize_url` (figure_scraper.py lines 233-247) -/

/-- `FigureScraper._normalize_url`: empty is passed back; otherwise the input
is stripped, protocol-relative URLs get the https scheme, root-relative URLs
get the site origin, URLs starting with "http" pass through, and anything
else is prefixed with the origin and a slash. -/
def normalize_url (url : String) : String :=
  if url = "" then ""
  else
    let u := pyStrip url
    if pyStartsWith u "//" then "https:" ++ u
    else if pyStartsWith u "/" then "https://www.ncbi.nlm.nih.gov" ++ u
    else if pyStartsWith u "http" then u
    else "https://www.ncbi.nlm.nih.gov/" ++ u

/-! ## `_extract_figure_caption` (figure_scraper.py lines 272-299) -/

/-- The ordered caption selectors. -/
def caption_selectors : List String :=
  [".fig-caption", "figcaption", ".caption", ".figure-caption", ".caption-text"]

/-- A figure element as observed by caption extraction: the text content of
`select_one(sel)` for each selector (`none` when no element matches), and the
text content of `find_next_sibling()` (`none` when there is no next sibling). -/
structure CaptionElem where
  selectOneText : String → Option String
  nextSiblingText : Option String

/-- `FigureScraper._extract_figure_caption`: first selector whose matched
element has stripped text longer than 10 characters wins and is returned
whitespace-collapsed; otherwise the next sibling's stripped text is used when
non-empty and longer than 20 characters (whitespace-collapsed); otherwise
the empty string. -/
def extract_figure_caption (e : CaptionElem) : String :=
  match caption_selectors.findSome? (fun sel =>
    match e.selectOneText sel with
    | some t =>
      let txt := pyStrip t
      if 10 < txt.length then some (collapseWs txt) else none
    | none => none) with
  | some c => c
  | none =>
    match e.nextSiblingText with
    | some st =>
      let s := pyStrip st
      if s ≠ "" ∧ 20 < s.length then collapseWs s else ""
    | none => ""

/-! ## `_extract_figure_label` (figure_scraper.py lines 249-270) -/

/-- The ordered label selectors. -/
def label_selectors : List String :=
  [".fig-label", ".figure-title", ".fig-title", "strong", ".caption-title", "h3", "h4"]

/-- `FigureScraper._extract_figure_label`: first selector whose matched
element has non-empty stripped text shorter than 200 characters wins;
otherwise the synthesized label `Figure <ordinal>`. -/
def extract_figure_label (selText : String → Option String) (fig_number : Nat) : String :=
  match label_selectors.findSome? (fun sel =>
    match selText sel with
    | some t =>
      let txt := pyStrip t
      if txt ≠ "" ∧ txt.length < 200 then some txt else none
    | none => none) with
  | some l => l
  | none => "Figure " ++ Nat.repr fig_number

/-! ## `_scrape_cdn_url_from_figure_page` (figure_scraper.py lines 143-212) -/

/-- The ordered, prioritized CDN selectors of the secondary-page scan. -/
def cdn_selectors : List String :=
  ["img[src*=\"cdn.ncbi.nlm.nih.gov/pmc/blobs/\"]",
   "img[src*=\"/pmc/blobs/\"]",
   "img.figure-image",
   ".figure-viewer img",
   ".fig-panel img",
   ".figure-content img",
   ".fig-main img",
   "img[src*=\"blobs\"]",
   "img[src*=\"cdn.ncbi.nlm.nih.gov\"]",
   ".fig img[src*=\".jpg\"]",
   ".fig img[src*=\".png\"]",
   "img[alt*=\"Figure\"]",
   "img[alt*=\"Fig\"]"]

/-- A fetched, parsed figure page as observed by the scan: for each CSS
selector, the `src` attributes of the matched `img` tags in document order
(`none` when a matched tag has no `src` attribute). -/
structure FigurePage where
  selectMatches : String → List (Option String)

/-- The per-candidate body of the scan loop (lines 189-197): skip a missing
or falsy `src`; otherwise normalize it and return it when it classifies as
direct-asset, or when it is an NCBI-host image URL; otherwise keep scanning. -/
def candidate_check (src? : Option String) : Option String :=
  match src? with
  | none => none
  | some src =>
    if src = "" then none
    else
      let n := normalize_url src
      if is_cdn_url n then some n
      else if is_generic_ncbi_image n then some n
      else none

/-- The selector scan of `_scrape_cdn_url_from_figure_page` over a
successfully fetched page (lines 186-208): selectors in priority order,
matched tags in document order, first returned candidate wins; empty string
when the scan exhausts all selectors. -/
def scan_figure_page (page : FigurePage) : String :=
  match cdn_selectors.findSome? (fun sel =>
    (page.selectMatches sel).findSome? candidate_check) with
  | some u => u
  | none => ""

/-- `FigureScraper._scrape_cdn_url_from_figure_page`: a failed fetch of the
figure page (non-200 status or exception, modelled by `none`) yields the
empty string; otherwise the selector scan runs on the parsed page. -/
def scrape_cdn_url_from_figure_page (fetched : Option FigurePage) : String :=
  match fetched with
  | none => ""
  | some page => scan_figure_page page

/-! ## `_get_cdn_image_url` (figure_scraper.py lines 130-141) -/

/-- `FigureScraper._get_cdn_image_url`.  `inlineImg` models
`fig_elem.find('img')`: `none` when the figure element contains no `img`
tag, otherwise the pair of its `src` and `data-src` attributes.  The
returned Boolean instruments whether the secondary figure-page fetch was
performed (`true` exactly on the calls into
`_scrape_cdn_url_from_figure_page`).  The inline short-circuit applies
`_is_cdn_url` to the raw attribute value (`src` before normalization) and
returns its normalized form. -/
def get_cdn_image_url (inlineImg : Option (Option String × Option String))
    (pageFetch : Option FigurePage) : String × Bool :=
  match inlineImg with
  | some (srcAttr, dataSrcAttr) =>
    match pyOr srcAttr dataSrcAttr with
    | some src =>
      if src ≠ "" ∧ is_cdn_url src = true then (normalize_url src, false)
      else (scrape_cdn_url_from_figure_page pageFetch, true)
    | none => (scrape_cdn_url_from_figure_page pageFetch, true)
  | none => (scrape_cdn_url_from_figure_page pageFetch, true)

/-! ## `_extract_figure_info` (figure_scraper.py lines 100-128) -/

/-- The output unit (`FigureRecord` of spec section 3): the dictionary built
at lines 120-126. -/
structure FigureRecord where
  figure_id : String
  label : String
  caption : String
  image_url : String
  figure_url : String
deriving DecidableEq

/-- The generic per-figure PMC page URL (lines 116 and 146). -/
def figure_page_url (pmcid fig_id : String) : String :=
  "https://www.ncbi.nlm.nih.gov/pmc/articles/" ++ pmcid ++ "/figure/" ++ fig_id ++ "/"

/-- A figure element as observed by `_extract_figure_info`: its `id`
attribute, the label-selector query results, the caption observations, and
the inline `img` tag attributes. -/
structure FigElem where
  idAttr : Option String
  labelSelText : String → Option String
  captionElem : CaptionElem
  inlineImg : Option (Option String × Option String)

/-- `FigureScraper._extract_figure_info`: derive the figure id (attribute or
synthesized `figure_<ordinal>`), extract label and caption, resolve the
image URL, and emit a record only when the caption is non-empty or the
resolver returned a non-empty URL; both URL fields prefer the resolved URL
and fall back to the generic figure-page URL. -/
def extract_figure_info (fig : FigElem) (pmcid : String) (fig_number : Nat)
    (pageFetch : Option FigurePage) : Option FigureRecord :=
  let fig_id := pyOrStr fig.idAttr ("figure_" ++ Nat.repr fig_number)
  let label := extract_figure_label fig.labelSelText fig_number
  let caption := extract_figure_caption fig.captionElem
  let cdn_image_url := (get_cdn_image_url fig.inlineImg pageFetch).fst
  let pmc_figure_page_url := figure_page_url pmcid fig_id
  if caption ≠ "" ∨ cdn_image_url ≠ "" then
    some { figure_id := fig_id
           label := label
           caption := caption
           image_url := if cdn_image_url ≠ "" then cdn_image_url else pmc_figure_page_url
           figure_url := if cdn_image_url ≠ "" then cdn_image_url else pmc_figure_page_url }
  else none

/-! ## `scrape_figures` (figure_scraper.py lines 24-64) -/

/-- The records an article's located figure elements produce: the figures are
enumerated from 1 in locator emission order and each surviving record is
appended (lines 50-54).  Each element is paired with the fetch oracle for
its secondary figure page. -/
def article_records (pmcid : String) (inputs : List (FigElem × Option FigurePage)) :
    List FigureRecord :=
  (List.enumFrom 1 inputs).filterMap
    (fun p => extract_figure_info p.2.1 pmcid p.1 p.2.2)

/-- The per-figure loop of `scrape_figures` with its per-figure `try/except`
(lines 50-58): each figure's extraction either raises (`Except.error`,
caught and skipped) or returns an optional record (`none` is dropped). -/
def process_figures : List (Except String (Option FigureRecord)) → List FigureRecord
  | [] => []
  | Except.error _ :: rest => process_figures rest
  | Except.ok none :: rest => process_figures rest
  | Except.ok (some r) :: rest => r :: process_figures rest

/-- `FigureScraper.scrape_figures` at the error-handling level: the outer
`try/except` (lines 38-64) turns a failed primary fetch or parse
(`Except.error`) into the empty list; a successful fetch yields the
per-figure loop's records. -/
def scrape_figures : Except String (List (Except String (Option FigureRecord))) →
    List FigureRecord
  | Except.error _ => []
  | Except.ok outcomes => process_figures outcomes

/-! ## Specification-side definitions (for refinement comparisons) -/

/-- Modelled from the amended spec wording for the secondary-page scan:
collect every candidate `src` across the prioritized selectors (selector
priority order, document order within a selector), drop missing and falsy
ones, normalize, and return the first candidate that classifies as
direct-asset or as a generic NCBI-host image; empty when none qualifies. -/
def scan_spec (page : FigurePage) : String :=
  let srcs := (cdn_selectors.flatMap page.selectMatches).filterMap id
  let cands := (srcs.filter (fun s => !(s = ""))).map normalize_url
  match (cands.filter (fun n => is_cdn_url n || is_generic_ncbi_image n)).head? with
  | some u => u
  | none => ""

/-- Modelled from the amended spec wording for caption extraction: among the
selector matches in order, the first whose trimmed text exceeds 10
characters is returned trimmed and whitespace-collapsed; otherwise the next
sibling's text is used (trimmed, whitespace-collapsed) when its trimmed
length exceeds 20, else the empty string. -/
def caption_spec (e : CaptionElem) : String :=
  let texts := caption_selectors.filterMap e.selectOneText
  match (texts.filter (fun t => 10 < (pyStrip t).length)).head? with
  | some t => collapseWs (pyStrip t)
  | none =>
    match e.nextSiblingText with
    | some st => if 20 < (pyStrip st).length then collapseWs (pyStrip st) else ""
    | none => ""

/-! ## Concrete documents used by counterexamples and witnesses -/

/-- A caption element carrying the spec's example caption text. -/
def elemPanel : CaptionElem :=
  ⟨fun sel => if sel = ".fig-caption" then some "   Panel A shows   focal  necrosis.   " else none,
   none⟩

/-- A caption element whose only selector match has stripped length 13 but
whitespace-collapsed length 9, and no next sibling. -/
def elemC8 : CaptionElem :=
  ⟨fun sel => if sel = ".fig-caption" then some "a  b  c  d  e" else none, none⟩

/-- A figure page on which an early selector (`img.figure-image`) matches a
generic NCBI-host image while a later selector (`img[src*="blobs"]`) matches
a root-relative blob-store asset that normalizes to a direct-asset URL. -/
def pageC2 : FigurePage :=
  ⟨fun sel =>
    if sel = "img.figure-image" then
      [some "https://www.ncbi.nlm.nih.gov/corehtml/logo.jpg"]
    else if sel = "img[src*=\"blobs\"]" then
      [some "pmc/blobs/123/fig2.jpg"]
    else []⟩

/-- A figure page matching both the highest-priority selector (a) and the
lowest-priority selector (f) with different direct-asset URLs. -/
def pageAF : FigurePage :=
  ⟨fun sel =>
    if sel = "img[src*=\"cdn.ncbi.nlm.nih.gov/pmc/blobs/\"]" then
      [some "https://cdn.ncbi.nlm.nih.gov/pmc/blobs/aa/f1.jpg"]
    else if sel = "img[alt*=\"Fig\"]" then
      [some "https://cdn.ncbi.nlm.nih.gov/pmc/blobs/zz/f9.jpg"]
    else []⟩

/-- A figure element with no id, no selector matches, no sibling and no
inline image: caption extraction returns empty and resolution returns empty. -/
def figEmpty : FigElem :=
  ⟨none, fun _ => none, ⟨fun _ => none, none⟩, none⟩

/-- A figure element with no id and a long caption, but no resolvable image. -/
def figCap : FigElem :=
  ⟨none, fun _ => none,
   ⟨fun sel => if sel = ".fig-caption" then some "A sufficiently long caption." else none, none⟩,
   none⟩

/-- Witness input list for the synthesized-id theorem: three figures lacking
an id attribute (the middle one produces no record). -/
def inputsW : List (FigElem × Option FigurePage) :=
  [(figCap, none), (figEmpty, none), (figCap, none)]

/-- The record `figCap` produces at ordinal 2 of article PMC9 (used by a
witness below). -/
def recW : FigureRecord :=
  { figure_id := "figure_2"
    label := "Figure 2"
    caption := "A sufficiently long caption."
    image_url := figure_page_url "PMC9" "figure_2"
    figure_url := figure_page_url "PMC9" "figure_2" }

/-- Structural decimal rendering of a natural number, used to reason about
`Nat.repr` (which is fuel-based). -/
def decChars (n : Nat) : List Char :=
  if n < 10 then [Nat.digitChar n]
  else decChars (n / 10) ++ [Nat.digitChar (n % 10)]
termination_by n
decreasing_by
  exact Nat.div_lt_self (by omega) (by omega)

/-! ## Helper lemmas: strings -/

theorem string_data_eq_nil {s : String} (h : s.data = []) : s = "" := by
  cases s
  simp_all [String.data]

theorem string_data_append (a b : String) : (a ++ b).data = a.data ++ b.data := by
  cases a
  cases b
  rfl

theorem string_append_ne_empty_left (a b : String) (ha : a ≠ "") : a ++ b ≠ "" := by
  intro h
  apply ha
  have := congrArg String.data h
  rw [string_data_append] at this
  simp only [List.append_eq_nil] at this
  exact string_data_eq_nil this.1

theorem string_append_cancel_left (a b c : String) (h : a ++ b = a ++ c) : b = c := by
  have hd := congrArg String.data h
  rw [string_data_append, string_data_append] at hd
  have := List.append_cancel_left hd
  cases b
  cases c
  simp_all [String.data]

theorem pyStartsWith_exists {s p : String} (h : pyStartsWith s p = true) :
    ∃ t, s.data = p.data ++ t := by
  obtain ⟨t, ht⟩ := List.isPrefixOf_iff_prefix.mp h
  exact ⟨t, ht.symm⟩

theorem pyStartsWith_ne_empty {s p : String} (hp : p ≠ "") (h : pyStartsWith s p = true) :
    s ≠ "" := by
  intro he
  obtain ⟨t, ht⟩ := pyStartsWith_exists h
  rw [he] at ht
  have : p.data ++ t = [] := ht.symm
  simp only [List.append_eq_nil] at this
  exact hp (string_data_eq_nil this.1)

theorem http_not_slash {s : String} (h : pyStartsWith s "http" = true) :
    pyStartsWith s "/" = false ∧ pyStartsWith s "//" = false := by
  obtain ⟨t, ht⟩ := pyStartsWith_exists h
  have hh : ("http" : String).data = ['h', 't', 't', 'p'] := rfl
  constructor
  · cases hb : pyStartsWith s "/" with
    | false => rfl
    | true =>
      obtain ⟨t2, ht2⟩ := pyStartsWith_exists hb
      rw [ht, hh] at ht2
      have hs : ("/" : String).data = ['/'] := rfl
      rw [hs] at ht2
      simp only [List.cons_append, List.nil_append] at ht2
      injection ht2 with h1 _
      exact absurd h1 (by decide)
  · cases hb : pyStartsWith s "//" with
    | false => rfl
    | true =>
      obtain ⟨t2, ht2⟩ := pyStartsWith_exists hb
      rw [ht, hh] at ht2
      have hs : ("//" : String).data = ['/', '/'] := rfl
      rw [hs] at ht2
      simp only [List.cons_append, List.nil_append] at ht2
      injection ht2 with h1 _
      exact absurd h1 (by decide)

/-! ## Helper lemmas: strip stability and idempotence of normalization -/

theorem dropWhile_dropWhile {α : Type} (p : α → Bool) (l : List α) :
    (l.dropWhile p).dropWhile p = l.dropWhile p := by
  induction l with
  | nil => rfl
  | cons a t ih =>
    by_cases h : p a = true
    · rw [List.dropWhile_cons, if_pos h, ih]
    · rw [List.dropWhile_cons, if_neg h, List.dropWhile_cons, if_neg h]

theorem stable_head {α : Type} (p : α → Bool) (a : α) (t : List α)
    (h : (a :: t).dropWhile p = a :: t) : p a = false := by
  cases hp : p a with
  | false => rfl
  | true =>
    rw [List.dropWhile_cons, if_pos hp] at h
    have := congrArg List.length h
    have hle : (t.dropWhile p).length ≤ t.length := (List.dropWhile_sublist p).length_le
    simp at this
    omega

theorem stable_append {α : Type} (p : α → Bool) (l₁ l₂ : List α)
    (h1 : l₁.dropWhile p = l₁) (h2 : l₂.dropWhile p = l₂) :
    (l₁ ++ l₂).dropWhile p = l₁ ++ l₂ := by
  cases l₁ with
  | nil => simpa using h2
  | cons a t =>
    have := stable_head p a t h1
    rw [List.cons_append, List.dropWhile_cons, if_neg (by simp [this])]

theorem stable_prefix {α : Type} (p : α → Bool) (l m : List α)
    (hm : m.dropWhile p = m) (hpre : l <+: m) : l.dropWhile p = l := by
  cases l with
  | nil => rfl
  | cons a t =>
    obtain ⟨r, hr⟩ := hpre
    have hm2 : m = a :: (t ++ r) := by rw [← hr]; rfl
    rw [hm2] at hm
    have := stable_head p a (t ++ r) hm
    rw [List.dropWhile_cons, if_neg (by simp [this])]

theorem mk_data (t : String) : (⟨t.data⟩ : String) = t := by
  cases t
  rfl

theorem pyStrip_data (s : String) :
    (pyStrip s).data =
      ((s.data.dropWhile isWsChar).reverse.dropWhile isWsChar).reverse := rfl

theorem strip_front_stable (s : String) :
    (pyStrip s).data.dropWhile isWsChar = (pyStrip s).data := by
  rw [pyStrip_data]
  apply stable_prefix isWsChar _ (s.data.dropWhile isWsChar) (dropWhile_dropWhile _ _)
  rw [← List.reverse_suffix, List.reverse_reverse]
  exact List.dropWhile_suffix isWsChar

theorem strip_back_stable (s : String) :
    (pyStrip s).data.reverse.dropWhile isWsChar = (pyStrip s).data.reverse := by
  rw [pyStrip_data, List.reverse_reverse]
  exact dropWhile_dropWhile _ _

theorem pyStrip_eq_self (t : String)
    (h1 : t.data.dropWhile isWsChar = t.data)
    (h2 : t.data.reverse.dropWhile isWsChar = t.data.reverse) : pyStrip t = t := by
  have hd : (pyStrip t).data = t.data := by
    rw [pyStrip_data, h1, h2, List.reverse_reverse]
  rw [← mk_data (pyStrip t), hd, mk_data]

theorem append_strip_stable (a s : String)
    (ha1 : a.data.dropWhile isWsChar = a.data)
    (ha2 : a.data.reverse.dropWhile isWsChar = a.data.reverse) :
    pyStrip (a ++ pyStrip s) = a ++ pyStrip s := by
  apply pyStrip_eq_self
  · rw [string_data_append]
    exact stable_append _ _ _ ha1 (strip_front_stable s)
  · rw [string_data_append, List.reverse_append]
    exact stable_append _ _ _ (strip_back_stable s) ha2

theorem pyStartsWith_append_of (p a : String) (h : pyStartsWith a p = true) (u : String) :
    pyStartsWith (a ++ u) p = true := by
  obtain ⟨t, ht⟩ := pyStartsWith_exists h
  apply List.isPrefixOf_iff_prefix.mpr
  exact ⟨t ++ u.data, by rw [string_data_append, ht, List.append_assoc]⟩

theorem normalize_http_pass (t : String) (hstrip : pyStrip t = t)
    (hhttp : pyStartsWith t "http" = true) : normalize_url t = t := by
  have hne : t ≠ "" := pyStartsWith_ne_empty (by decide) hhttp
  obtain ⟨h1, h2⟩ := http_not_slash hhttp
  simp [normalize_url, hne, hstrip, h1, h2, hhttp]

theorem normalize_url_idem (s : String) :
    normalize_url (normalize_url s) = normalize_url s := by
  by_cases hs : s = ""
  · subst hs
    rfl
  · by_cases h1 : pyStartsWith (pyStrip s) "//" = true
    · have hr : normalize_url s = "https:" ++ pyStrip s := by
        simp [normalize_url, hs, h1]
      rw [hr]
      exact normalize_http_pass _ (append_strip_stable "https:" s (by decide) (by decide))
        (pyStartsWith_append_of "http" "https:" (by decide) (pyStrip s))
    · by_cases h2 : pyStartsWith (pyStrip s) "/" = true
      · have hr : normalize_url s = "https://www.ncbi.nlm.nih.gov" ++ pyStrip s := by
          simp [normalize_url, hs, h1, h2]
        rw [hr]
        exact normalize_http_pass _
          (append_strip_stable "https://www.ncbi.nlm.nih.gov" s (by decide) (by decide))
          (pyStartsWith_append_of "http" "https://www.ncbi.nlm.nih.gov" (by decide) (pyStrip s))
      · by_cases h3 : pyStartsWith (pyStrip s) "http" = true
        · have hr : normalize_url s = pyStrip s := by
            simp [normalize_url, hs, h1, h2, h3]
          rw [hr]
          exact normalize_http_pass _
            (pyStrip_eq_self _ (strip_front_stable s) (strip_back_stable s)) h3
        · have hr : normalize_url s = "https://www.ncbi.nlm.nih.gov/" ++ pyStrip s := by
            simp [normalize_url, hs, h1, h2, h3]
          rw [hr]
          exact normalize_http_pass _
            (append_strip_stable "https://www.ncbi.nlm.nih.gov/" s (by decide) (by decide))
            (pyStartsWith_append_of "http" "https://www.ncbi.nlm.nih.gov/" (by decide)
              (pyStrip s))

/-! ## Claim theorems -/

/-- C1, counterexample: for the inline reference `/pmc/blobs/abc/fig1.jpg`
the normalized form is a direct-asset URL, yet the code classifies the raw
reference (which is not), so the resolver does perform the secondary
figure-page fetch, contradicting the claim. -/
theorem c1_root_relative_triggers_fetch :
    is_cdn_url (normalize_url "/pmc/blobs/abc/fig1.jpg") = true ∧
    is_cdn_url "/pmc/blobs/abc/fig1.jpg" = false ∧
    (get_cdn_image_url (some (some "/pmc/blobs/abc/fig1.jpg", none)) none).snd = true := by
  decide

/-- C1 (amended): when the inline image reference itself (raw `src`, with
lazy-load `data-src` as secondary, before normalization) classifies as
direct-asset, the resolver returns its normalized form without performing
the secondary figure-page fetch. -/
theorem c1_inline_direct_asset_no_fetch (srcAttr dataSrcAttr : Option String)
    (pf : Option FigurePage) (s : String)
    (hsrc : pyOr srcAttr dataSrcAttr = some s) (hcdn : is_cdn_url s = true) :
    get_cdn_image_url (some (srcAttr, dataSrcAttr)) pf = (normalize_url s, false) := by
  have hs : s ≠ "" := by
    intro he
    subst he
    exact absurd hcdn (by decide)
  simp [get_cdn_image_url, hsrc, hs, hcdn]

/-- C1 witness: a protocol-relative blob-store reference passes the raw
direct-asset check, and the resolver returns its normalized form with no
secondary fetch. -/
theorem c1_inline_direct_asset_no_fetch_witness :
    get_cdn_image_url (some (some "//cdn.ncbi.nlm.nih.gov/pmc/blobs/aa/f1.jpg", none)) none =
      ("https://cdn.ncbi.nlm.nih.gov/pmc/blobs/aa/f1.jpg", false) := by
  have h := c1_inline_direct_asset_no_fetch
    (some "//cdn.ncbi.nlm.nih.gov/pmc/blobs/aa/f1.jpg") none none
    "//cdn.ncbi.nlm.nih.gov/pmc/blobs/aa/f1.jpg" (by decide) (by decide)
  rw [h]
  decide

/-- C3: URL classification is total with exactly the three outcomes;
a string classifies as direct-asset iff it contains a blob-store path marker
AND (case-insensitively) an image extension; `classify("not a url")` is
unusable, and either conjunct alone is insufficient. -/
theorem c3_classification_total_and_conjunctive :
    (∀ u : String, classify_url u = UrlClass.directAsset ∨
      classify_url u = UrlClass.genericRepoImage ∨ classify_url u = UrlClass.unusable) ∧
    (∀ u : String, classify_url u = UrlClass.directAsset ↔
      ((cdn_patterns.any fun p => pyContains u p) = true ∧
       (image_extensions.any fun e => pyContains (pyLower u) e) = true)) ∧
    classify_url "not a url" = UrlClass.unusable ∧
    classify_url "https://cdn.ncbi.nlm.nih.gov/pmc/blobs/v1/fig" ≠ UrlClass.directAsset ∧
    classify_url "https://example.org/x.jpg" ≠ UrlClass.directAsset := by
  refine ⟨?_, ?_, by decide, by decide, by decide⟩
  · intro u
    unfold classify_url
    split
    · exact Or.inl rfl
    · split
      · exact Or.inr (Or.inl rfl)
      · exact Or.inr (Or.inr rfl)
  · intro u
    constructor
    · intro hd
      unfold classify_url at hd
      by_cases hcdn : is_cdn_url u = true
      · unfold is_cdn_url at hcdn
        by_cases hu : u = ""
        · rw [if_pos hu] at hcdn
          exact absurd hcdn (by decide)
        · rw [if_neg hu] at hcdn
          exact Bool.and_eq_true_iff.mp hcdn
      · rw [if_neg hcdn] at hd
        split at hd
        · exact absurd hd (by decide)
        · exact absurd hd (by decide)
    · intro ⟨hA, hB⟩
      have hu : u ≠ "" := by
        intro he
        subst he
        exact absurd hA (by decide)
      unfold classify_url is_cdn_url
      rw [if_neg hu, hA, hB]
      simp

/-- C7, counterexample: an absolute URL with a non-http scheme is not passed
through by normalization; it is prefixed with the site origin instead. -/
theorem c7_non_http_scheme_not_passed_through :
    normalize_url "ftp://example.com/a.jpg" ≠ "ftp://example.com/a.jpg" ∧
    normalize_url "ftp://example.com/a.jpg" =
      "https://www.ncbi.nlm.nih.gov/ftp://example.com/a.jpg" := by
  decide

/-- C7 (amended): on trimmed inputs, normalization maps protocol-relative
URLs to their https-qualified form, maps root-relative URLs to the site
origin prefixed form, passes through inputs starting with "http" (http and
https URLs), and prefixes every other non-empty input — URLs with any other
scheme included — with the site origin and a slash; normalizing twice
equals normalizing once on every input, so in particular on every
already-absolute URL. -/
theorem c7_normalize_url_cases (s : String) (h : pyStrip s = s) :
    (pyStartsWith s "//" = true → normalize_url s = "https:" ++ s) ∧
    (pyStartsWith s "//" = false → pyStartsWith s "/" = true →
      normalize_url s = "https://www.ncbi.nlm.nih.gov" ++ s) ∧
    (pyStartsWith s "http" = true → normalize_url s = s) ∧
    (pyStartsWith s "//" = false → pyStartsWith s "/" = false →
      pyStartsWith s "http" = false → s ≠ "" →
      normalize_url s = "https://www.ncbi.nlm.nih.gov/" ++ s) ∧
    (∀ t : String, normalize_url (normalize_url t) = normalize_url t) := by
  refine ⟨?_, ?_, ?_, ?_, normalize_url_idem⟩
  · intro hss
    have hne : s ≠ "" := pyStartsWith_ne_empty (by decide) hss
    simp [normalize_url, hne, h, hss]
  · intro hss hsl
    have hne : s ≠ "" := pyStartsWith_ne_empty (by decide) hsl
    simp [normalize_url, hne, h, hss, hsl]
  · intro hh
    exact normalize_http_pass s h hh
  · intro h1 h2 h3 hne
    simp [normalize_url, hne, h, h1, h2, h3]

/-- C7 witness: concrete instances of the four normalization cases —
including the origin-prefixing of a non-http scheme — and of idempotence at
an absolute http URL and at the non-http-scheme input. -/
theorem c7_normalize_url_cases_witness :
    normalize_url "//host/path.jpg" = "https://host/path.jpg" ∧
    normalize_url "/pmc/img/a.png" = "https://www.ncbi.nlm.nih.gov/pmc/img/a.png" ∧
    normalize_url "http://x.org/a.png" = "http://x.org/a.png" ∧
    normalize_url "ftp://example.com/a.jpg" =
      "https://www.ncbi.nlm.nih.gov/ftp://example.com/a.jpg" ∧
    normalize_url (normalize_url "http://x.org/a.png") = normalize_url "http://x.org/a.png" ∧
    normalize_url (normalize_url "ftp://example.com/a.jpg") =
      normalize_url "ftp://example.com/a.jpg" := by
  refine ⟨?_, ?_, ?_, ?_, ?_, ?_⟩
  · have h := (c7_normalize_url_cases "//host/path.jpg" (by decide)).1 (by decide)
    rw [h]
    decide
  · have h := (c7_normalize_url_cases "/pmc/img/a.png" (by decide)).2.1 (by decide) (by decide)
    rw [h]
    decide
  · exact (c7_normalize_url_cases "http://x.org/a.png" (by decide)).2.2.1 (by decide)
  · have h := (c7_normalize_url_cases "ftp://example.com/a.jpg" (by decide)).2.2.2.1
      (by decide) (by decide) (by decide) (by decide)
    rw [h]
    decide
  · exact (c7_normalize_url_cases "http://x.org/a.png" (by decide)).2.2.2.2 "http://x.org/a.png"
  · exact (c7_normalize_url_cases "ftp://example.com/a.jpg" (by decide)).2.2.2.2
      "ftp://example.com/a.jpg"

/-! ## Helper lemmas: the secondary-page scan as a first-match search -/

theorem findSome?_candidate_check (xs : List (Option String)) :
    xs.findSome? candidate_check =
      ((((xs.filterMap id).filter (fun s => !(s = ""))).map normalize_url).filter
        (fun n => is_cdn_url n || is_generic_ncbi_image n)).head? := by
  induction xs with
  | nil => rfl
  | cons o rest ih =>
    rw [List.findSome?_cons]
    cases o with
    | none =>
      simp only [candidate_check, List.filterMap_cons]
      exact ih
    | some s =>
      by_cases hs : s = ""
      · subst hs
        simp only [candidate_check, if_pos rfl, List.filterMap_cons, List.filter_cons]
        simpa using ih
      · cases h1 : is_cdn_url (normalize_url s) <;>
          cases h2 : is_generic_ncbi_image (normalize_url s) <;>
          simp [candidate_check, hs, h1, h2, List.filterMap_cons, List.filter_cons, ih]

theorem scan_eq_spec (page : FigurePage) : scan_figure_page page = scan_spec page := by
  have main : ∀ sels : List String,
      (sels.findSome? fun sel => (page.selectMatches sel).findSome? candidate_check) =
      ((((((sels.flatMap page.selectMatches).filterMap id).filter
          (fun s => !(s = ""))).map normalize_url).filter
          (fun n => is_cdn_url n || is_generic_ncbi_image n)).head?) := by
    intro sels
    induction sels with
    | nil => rfl
    | cons a rest ih =>
      rw [List.findSome?_cons, List.flatMap_cons, List.filterMap_append, List.filter_append,
        List.map_append, List.filter_append, List.head?_append]
      rw [findSome?_candidate_check (page.selectMatches a), ih]
      cases hx : ((((((page.selectMatches a).filterMap id).filter
          (fun s => !(s = ""))).map normalize_url).filter
          (fun n => is_cdn_url n || is_generic_ncbi_image n)).head?) <;>
        simp [hx, Option.or]
  unfold scan_figure_page scan_spec
  rw [main cdn_selectors]

/-- C2, counterexample: on `pageC2` an earlier selector yields a merely
generic NCBI-host image and a later selector yields a candidate whose
normalized URL is direct-asset, yet the scan returns the generic candidate
immediately instead of remembering it and continuing. -/
theorem c2_lesser_candidate_short_circuits :
    scan_figure_page pageC2 = "https://www.ncbi.nlm.nih.gov/corehtml/logo.jpg" ∧
    is_cdn_url "https://www.ncbi.nlm.nih.gov/corehtml/logo.jpg" = false ∧
    is_generic_ncbi_image "https://www.ncbi.nlm.nih.gov/corehtml/logo.jpg" = true ∧
    pageC2.selectMatches "img[src*=\"blobs\"]" = [some "pmc/blobs/123/fig2.jpg"] ∧
    is_cdn_url (normalize_url "pmc/blobs/123/fig2.jpg") = true := by
  decide

/-- C2 (amended): the scan returns the first candidate, in selector-priority
order and document order within a selector, whose normalized URL is
direct-asset OR a generic NCBI-host image — a lesser candidate also
short-circuits the scan rather than being remembered — and returns empty
iff no candidate of either kind exists; in particular a direct-asset hit on
the highest-priority selector wins over any lower-priority match. -/
theorem c2_scan_first_qualifying_candidate :
    (∀ page : FigurePage, scan_figure_page page = scan_spec page) ∧
    scan_figure_page pageAF = "https://cdn.ncbi.nlm.nih.gov/pmc/blobs/aa/f1.jpg" :=
  ⟨scan_eq_spec, by decide⟩

/-! ## Helper lemmas: caption extraction as a first-match search -/

theorem findSome?_caption_gate (l : List String) (f : String → Option String) :
    (l.findSome? fun sel =>
      match f sel with
      | some t =>
        let txt := pyStrip t
        if 10 < txt.length then some (collapseWs txt) else none
      | none => none) =
    (((l.filterMap f).filter fun t => 10 < (pyStrip t).length).head?).map
      (fun t => collapseWs (pyStrip t)) := by
  induction l with
  | nil => rfl
  | cons a rest ih =>
    rw [List.findSome?_cons]
    cases hf : f a with
    | none =>
      simp only [hf, List.filterMap_cons]
      exact ih
    | some t =>
      by_cases hlen : 10 < (pyStrip t).length
      · simp [hf, hlen, List.filterMap_cons, List.filter_cons]
      · simp [hf, hlen, List.filterMap_cons, List.filter_cons, ih]

theorem caption_eq_spec (e : CaptionElem) :
    extract_figure_caption e = caption_spec e := by
  unfold extract_figure_caption caption_spec
  rw [findSome?_caption_gate]
  cases hh : ((caption_selectors.filterMap e.selectOneText).filter
      (fun t => 10 < (pyStrip t).length)).head? with
  | some t => simp [hh]
  | none =>
    simp only [hh, Option.map_none']
    cases hs : e.nextSiblingText with
    | none => rfl
    | some st =>
      by_cases h20 : 20 < (pyStrip st).length
      · have hne : pyStrip st ≠ "" := by
          intro h0
          rw [h0] at h20
          simp [String.length] at h20
        simp [h20, hne]
      · simp [h20]

/-- C8, counterexample: on `elemC8` the first selector match has stripped
length 13, so the code accepts it and returns its collapsed form of length
9 — a non-empty result whose trimmed, whitespace-collapsed text does not
exceed 10 characters, contradicting the claimed gate. -/
theorem c8_gate_on_trimmed_not_collapsed_length :
    extract_figure_caption elemC8 = "a b c d e" ∧
    ¬ 10 < (collapseWs (pyStrip "a  b  c  d  e")).length ∧
    ("a b c d e" : String) ≠ "" := by
  decide

/-- C8 (amended): caption extraction returns the first selector match whose
TRIMMED text exceeds 10 characters (the gate is applied before whitespace
collapsing), returned trimmed and whitespace-collapsed; the sibling fallback
and empty default are as claimed; in particular the spec's example caption
collapses as stated. -/
theorem c8_caption_extraction_spec :
    (∀ e : CaptionElem, extract_figure_caption e = caption_spec e) ∧
    extract_figure_caption elemPanel = "Panel A shows focal necrosis." :=
  ⟨caption_eq_spec, by decide⟩

/-! ## Record emission and field composition (C4, C5, C6) -/

/-- C4: a record is emitted iff the extracted caption is non-empty or the
image resolver returned a non-empty URL (the resolver signals fall-through
to the generic figure-page URL by returning the empty string); a figure
with empty caption and empty resolution yields no record. -/
theorem c4_emission_iff_caption_or_resolved (fig : FigElem) (pmcid : String) (n : Nat)
    (pf : Option FigurePage) :
    (∃ r, extract_figure_info fig pmcid n pf = some r) ↔
      (extract_figure_caption fig.captionElem ≠ "" ∨
       (get_cdn_image_url fig.inlineImg pf).fst ≠ "") := by
  unfold extract_figure_info
  by_cases h : extract_figure_caption fig.captionElem ≠ "" ∨
      (get_cdn_image_url fig.inlineImg pf).fst ≠ ""
  · simp [h]
  · simp [h]

/-- C5, counterexample: a figure with empty caption whose image resolution
returns empty is dropped — no record carrying the generic figure-page URL
is emitted, contradicting the claim. -/
theorem c5_empty_caption_empty_resolution_dropped :
    extract_figure_caption figEmpty.captionElem = "" ∧
    (get_cdn_image_url figEmpty.inlineImg none).fst = "" ∧
    extract_figure_info figEmpty "PMC123" 1 none = none := by
  decide

/-- C5 (amended): when both the caption and the resolver result are empty,
the record is dropped (the generic figure-page URL is never substituted,
because emission is gated on the resolver result, not on the composed
field); the generic URL is substituted into the emitted record exactly when
the caption is non-empty and the resolver returned empty; and an
empty-caption figure is emitted iff the resolver returned non-empty, in
which case the image field holds that URL. -/
theorem c5_emission_and_fallback_rules (fig : FigElem) (pmcid : String) (n : Nat)
    (pf : Option FigurePage) :
    (extract_figure_caption fig.captionElem = "" →
      (get_cdn_image_url fig.inlineImg pf).fst = "" →
      extract_figure_info fig pmcid n pf = none) ∧
    (extract_figure_caption fig.captionElem ≠ "" →
      (get_cdn_image_url fig.inlineImg pf).fst = "" →
      extract_figure_info fig pmcid n pf =
        some { figure_id := pyOrStr fig.idAttr ("figure_" ++ Nat.repr n)
               label := extract_figure_label fig.labelSelText n
               caption := extract_figure_caption fig.captionElem
               image_url := figure_page_url pmcid (pyOrStr fig.idAttr ("figure_" ++ Nat.repr n))
               figure_url := figure_page_url pmcid
                 (pyOrStr fig.idAttr ("figure_" ++ Nat.repr n)) }) ∧
    (extract_figure_caption fig.captionElem = "" →
      (get_cdn_image_url fig.inlineImg pf).fst ≠ "" →
      ∃ r, extract_figure_info fig pmcid n pf = some r ∧
        r.image_url = (get_cdn_image_url fig.inlineImg pf).fst) := by
  refine ⟨?_, ?_, ?_⟩
  · intro hc hr
    simp [extract_figure_info, hc, hr]
  · intro hc hr
    simp [extract_figure_info, hc, hr]
  · intro hc hr
    refine ⟨{ figure_id := pyOrStr fig.idAttr ("figure_" ++ Nat.repr n)
              label := extract_figure_label fig.labelSelText n
              caption := ""
              image_url := (get_cdn_image_url fig.inlineImg pf).fst
              figure_url := (get_cdn_image_url fig.inlineImg pf).fst }, ?_, rfl⟩
    simp [extract_figure_info, hc, hr]

/-- C5 witness: the amended rules applied at concrete figures — the
all-empty figure is dropped, and the captioned figure without a resolvable
image is emitted with the generic page URL in its image field. -/
theorem c5_emission_and_fallback_rules_witness :
    extract_figure_info figEmpty "PMC123" 1 none = none ∧
    extract_figure_info figCap "PMC123" 1 none =
      some { figure_id := "figure_1"
             label := "Figure 1"
             caption := "A sufficiently long caption."
             image_url := figure_page_url "PMC123" "figure_1"
             figure_url := figure_page_url "PMC123" "figure_1" } := by
  constructor
  · exact (c5_emission_and_fallback_rules figEmpty "PMC123" 1 none).1 (by decide) (by decide)
  · have h := (c5_emission_and_fallback_rules figCap "PMC123" 1 none).2.1 (by decide) (by decide)
    rw [h]
    decide

theorem string_append_ne_empty_right (a b : String) (hb : b ≠ "") : a ++ b ≠ "" := by
  intro h
  apply hb
  have := congrArg String.data h
  rw [string_data_append] at this
  simp only [List.append_eq_nil] at this
  exact string_data_eq_nil this.2

theorem figure_page_url_ne_empty (pmcid fid : String) : figure_page_url pmcid fid ≠ "" := by
  unfold figure_page_url
  exact string_append_ne_empty_right _ _ (by decide)

/-- C6: in every emitted record the image field and the figure-link field
are equal — the resolved URL when non-empty, else the generic figure-page
URL — and both fields are non-empty. -/
theorem c6_record_url_fields (fig : FigElem) (pmcid : String) (n : Nat)
    (pf : Option FigurePage) (r : FigureRecord)
    (h : extract_figure_info fig pmcid n pf = some r) :
    r.image_url = r.figure_url ∧
    r.image_url = (if (get_cdn_image_url fig.inlineImg pf).fst ≠ ""
      then (get_cdn_image_url fig.inlineImg pf).fst
      else figure_page_url pmcid (pyOrStr fig.idAttr ("figure_" ++ Nat.repr n))) ∧
    r.image_url ≠ "" ∧ r.figure_url ≠ "" := by
  simp only [extract_figure_info] at h
  split at h
  · injection h with h2
    subst h2
    refine ⟨rfl, rfl, ?_, ?_⟩ <;>
      · by_cases hcdn : (get_cdn_image_url fig.inlineImg pf).fst ≠ ""
        · simp [hcdn]
        · simp [hcdn, figure_page_url_ne_empty]
  · exact absurd h (by simp)

/-- C6 witness: a concrete emitted record with equal, non-empty URL fields. -/
theorem c6_record_url_fields_witness :
    extract_figure_info figCap "PMC9" 2 none = some recW ∧
    recW.image_url = recW.figure_url ∧ recW.image_url ≠ "" := by
  have hx : extract_figure_info figCap "PMC9" 2 none = some recW := by decide
  have h := c6_record_url_fields figCap "PMC9" 2 none recW hx
  exact ⟨hx, h.1, h.2.2.1⟩

/-! ## Error containment (C9) -/

/-- C9: the scraper is total — a failed primary fetch yields the empty
record list, and a per-figure extraction error removes only that figure
from the processed sequence, leaving the records of all figures before and
after it unchanged. -/
theorem c9_error_containment :
    (∀ e : String, scrape_figures (Except.error e) = []) ∧
    (∀ (xs ys : List (Except String (Option FigureRecord))) (e : String),
      scrape_figures (Except.ok (xs ++ Except.error e :: ys)) =
        scrape_figures (Except.ok (xs ++ ys))) := by
  constructor
  · intro e
    rfl
  · intro xs ys e
    show process_figures (xs ++ Except.error e :: ys) = process_figures (xs ++ ys)
    induction xs with
    | nil => rfl
    | cons x rest ih =>
      cases x with
      | error msg => simpa [process_figures] using ih
      | ok o =>
        cases o with
        | none => simpa [process_figures] using ih
        | some r => simp [process_figures, ih]

/-! ## Helper lemmas: injectivity of the decimal rendering of naturals -/

theorem decChars_unfold (n : Nat) :
    decChars n =
      if n < 10 then [Nat.digitChar n] else decChars (n / 10) ++ [Nat.digitChar (n % 10)] := by
  rw [decChars]

theorem toDigitsCore_eq_decChars (fuel n : Nat) (ds : List Char) (h : n < fuel) :
    Nat.toDigitsCore 10 fuel n ds = decChars n ++ ds := by
  induction fuel generalizing n ds with
  | zero => omega
  | succ f ih =>
    show (let d := Nat.digitChar (n % 10); let nd := n / 10;
          if nd = 0 then d :: ds else Nat.toDigitsCore 10 f nd (d :: ds)) = _
    by_cases h10 : n / 10 = 0
    · rw [decChars_unfold, if_pos (by omega : n < 10)]
      have hm : n % 10 = n := Nat.mod_eq_of_lt (by omega)
      simp [h10, hm]
    · have hd : n / 10 < f := by
        have := Nat.div_lt_self (by omega : 0 < n) (by omega : (1 : Nat) < 10)
        omega
      simp only [if_neg h10, ih _ _ hd]
      conv_rhs => rw [decChars_unfold n]
      rw [if_neg (by omega : ¬ n < 10)]
      simp

theorem decChars_ne_nil (n : Nat) : decChars n ≠ [] := by
  rw [decChars_unfold]
  by_cases h : n < 10 <;> simp [h]

theorem digitChar_inj_lt :
    ∀ a : Nat, a < 10 → ∀ b : Nat, b < 10 → Nat.digitChar a = Nat.digitChar b → a = b := by
  decide

theorem decChars_inj (n : Nat) : ∀ m : Nat, decChars n = decChars m → n = m := by
  induction n using Nat.strong_induction_on with
  | _ n ih =>
    intro m h
    rw [decChars_unfold, decChars_unfold m] at h
    by_cases hn : n < 10 <;> by_cases hm : m < 10
    · rw [if_pos hn, if_pos hm] at h
      exact digitChar_inj_lt n hn m hm (by injection h)
    · rw [if_pos hn, if_neg hm] at h
      have hlen := congrArg List.length h
      simp only [List.length_append, List.length_cons, List.length_nil] at hlen
      have hne : (decChars (m / 10)).length ≠ 0 := by
        intro h0
        exact decChars_ne_nil (m / 10) (List.length_eq_zero.mp h0)
      omega
    · rw [if_neg hn, if_pos hm] at h
      have hlen := congrArg List.length h
      simp only [List.length_append, List.length_cons, List.length_nil] at hlen
      have hne : (decChars (n / 10)).length ≠ 0 := by
        intro h0
        exact decChars_ne_nil (n / 10) (List.length_eq_zero.mp h0)
      omega
    · rw [if_neg hn, if_neg hm] at h
      have h2 := congrArg List.reverse h
      simp at h2
      obtain ⟨hdig, hrest⟩ := h2
      have hdiv : n / 10 = m / 10 := by
        have := Nat.div_lt_self (by omega : 0 < n) (by omega : (1 : Nat) < 10)
        exact ih (n / 10) (by omega) (m / 10) hrest
      have hmod : n % 10 = m % 10 :=
        digitChar_inj_lt _ (Nat.mod_lt _ (by omega)) _ (Nat.mod_lt _ (by omega)) hdig
      omega

theorem nat_repr_inj (n m : Nat) (h : Nat.repr n = Nat.repr m) : n = m := by
  have h2 : (Nat.toDigits 10 n).asString = (Nat.toDigits 10 m).asString := h
  have h3 : Nat.toDigits 10 n = Nat.toDigits 10 m := by
    simpa [List.asString] using congrArg String.data h2
  unfold Nat.toDigits at h3
  rw [toDigitsCore_eq_decChars _ _ _ (by omega), toDigitsCore_eq_decChars _ _ _ (by omega)] at h3
  simp at h3
  exact decChars_inj n m h3

/-! ## Synthesized figure ids (C10) -/

theorem extract_id_of_no_attr (fig : FigElem) (pmcid : String) (n : Nat)
    (pf : Option FigurePage) (r : FigureRecord) (hid : fig.idAttr = none)
    (h : extract_figure_info fig pmcid n pf = some r) :
    r.figure_id = "figure_" ++ Nat.repr n := by
  simp only [extract_figure_info, hid, pyOrStr] at h
  split at h
  · injection h with h2
    subst h2
    rfl
  · exact absurd h (by simp)

theorem article_ids_nodup_from (pmcid : String) :
    ∀ (inputs : List (FigElem × Option FigurePage)) (k : Nat),
      (∀ x ∈ inputs, x.1.idAttr = none) →
      (((List.enumFrom k inputs).filterMap
          (fun p => extract_figure_info p.2.1 pmcid p.1 p.2.2)).map FigureRecord.figure_id).Nodup ∧
      (∀ s ∈ ((List.enumFrom k inputs).filterMap
          (fun p => extract_figure_info p.2.1 pmcid p.1 p.2.2)).map FigureRecord.figure_id,
        ∃ n, k ≤ n ∧ s = "figure_" ++ Nat.repr n) := by
  intro inputs
  induction inputs with
  | nil =>
    intro k h
    exact ⟨List.nodup_nil, by simp⟩
  | cons x rest ih =>
    intro k h
    have hx : x.1.idAttr = none := h x (List.mem_cons_self x rest)
    have hrest := ih (k + 1) (fun y hy => h y (List.mem_cons_of_mem x hy))
    rw [List.enumFrom_cons, List.filterMap_cons]
    cases he : extract_figure_info x.1 pmcid k x.2 with
    | none =>
      simp only [he]
      refine ⟨hrest.1, ?_⟩
      intro s hm
      obtain ⟨n, hn, hs⟩ := hrest.2 s hm
      exact ⟨n, by omega, hs⟩
    | some r =>
      have hid := extract_id_of_no_attr x.1 pmcid k x.2 r hx he
      simp only [List.map_cons]
      constructor
      · rw [List.nodup_cons]
        refine ⟨?_, hrest.1⟩
        intro hmem
        obtain ⟨n, hkn, hs⟩ := hrest.2 _ hmem
        rw [hid] at hs
        have := nat_repr_inj k n (string_append_cancel_left _ _ _ hs)
        omega
      · intro s hm
        rcases List.mem_cons.mp hm with hfirst | hrest2
        · exact ⟨k, le_refl k, by rw [hfirst, hid]⟩
        · obtain ⟨n, hn, hs⟩ := hrest.2 s hrest2
          exact ⟨n, by omega, hs⟩

/-- C10: when every located figure element lacks an id attribute, the
synthesized figure ids of the emitted records are pairwise distinct within
the article's record set, and the id assigned to an element is
`figure_<ordinal>`, a function of its 1-based position in emission order
alone. -/
theorem c10_synth_ids_distinct (pmcid : String) (inputs : List (FigElem × Option FigurePage))
    (h : ∀ x ∈ inputs, x.1.idAttr = none) :
    ((article_records pmcid inputs).map FigureRecord.figure_id).Nodup ∧
    (∀ (n : Nat) (fig : FigElem) (pf : Option FigurePage) (r : FigureRecord),
      fig.idAttr = none → extract_figure_info fig pmcid n pf = some r →
      r.figure_id = "figure_" ++ Nat.repr n) := by
  refine ⟨?_, fun n fig pf r hid he => extract_id_of_no_attr fig pmcid n pf r hid he⟩
  unfold article_records
  exact (article_ids_nodup_from pmcid inputs 1 h).1

/-- C10 witness: three id-less figures (the middle one emits no record)
produce the distinct ids figure_1 and figure_3. -/
theorem c10_synth_ids_distinct_witness :
    ((article_records "PMC7" inputsW).map FigureRecord.figure_id).Nodup ∧
    (article_records "PMC7" inputsW).map FigureRecord.figure_id = ["figure_1", "figure_3"] :=
  ⟨(c10_synth_ids_distinct "PMC7" inputsW (by decide)).1, by decide⟩

end MedImages
